import Mathlib

/-
Verification development for the crawler engine of this repository
(services/crawler.js, crawler-factory.js, services/scheduler.js, routes/api.js).
JavaScript numbers that the code treats as integers are modelled as Int (or Nat
where the code guarantees non-negativity); nullable / possibly-undefined values
are modelled as Option; fallible operations return Except or an explicit error
constructor.  External collaborators (the WHATWG URL library, the DOM selector
engine, the SQL storage engine) are modelled as explicit parameters so that the
repository's own control flow stays the authority.
-/

/-! ## MD5 (node:crypto createHash('md5').update(s).digest('hex'))

The crawler's fingerprint is the MD5 hex digest of title + link
(BaseCrawler.generateHash and UniversalCrawler.generateHash are identical
methods).  MD5 is implemented here in full (RFC 1321) over UTF-8 bytes,
with 32-bit words as Nat reduced mod 2^32. -/

/-- Round constants of MD5 (floor(2^32 * abs(sin(i+1))), RFC 1321). -/
def md5K : List Nat :=
  [0xd76aa478, 0xe8c7b756, 0x242070db, 0xc1bdceee, 0xf57c0faf, 0x4787c62a, 0xa8304613, 0xfd469501,
   0x698098d8, 0x8b44f7af, 0xffff5bb1, 0x895cd7be, 0x6b901122, 0xfd987193, 0xa679438e, 0x49b40821,
   0xf61e2562, 0xc040b340, 0x265e5a51, 0xe9b6c7aa, 0xd62f105d, 0x02441453, 0xd8a1e681, 0xe7d3fbc8,
   0x21e1cde6, 0xc33707d6, 0xf4d50d87, 0x455a14ed, 0xa9e3e905, 0xfcefa3f8, 0x676f02d9, 0x8d2a4c8a,
   0xfffa3942, 0x8771f681, 0x6d9d6122, 0xfde5380c, 0xa4beea44, 0x4bdecfa9, 0xf6bb4b60, 0xbebfbc70,
   0x289b7ec6, 0xeaa127fa, 0xd4ef3085, 0x04881d05, 0xd9d4d039, 0xe6db99e5, 0x1fa27cf8, 0xc4ac5665,
   0xf4292244, 0x432aff97, 0xab9423a7, 0xfc93a039, 0x655b59c3, 0x8f0ccc92, 0xffeff47d, 0x85845dd1,
   0x6fa87e4f, 0xfe2ce6e0, 0xa3014314, 0x4e0811a1, 0xf7537e82, 0xbd3af235, 0x2ad7d2bb, 0xeb86d391]

/-- Per-round left-rotation amounts of MD5. -/
def md5S : List Nat :=
  [7, 12, 17, 22, 7, 12, 17, 22, 7, 12, 17, 22, 7, 12, 17, 22,
   5, 9, 14, 20, 5, 9, 14, 20, 5, 9, 14, 20, 5, 9, 14, 20,
   4, 11, 16, 23, 4, 11, 16, 23, 4, 11, 16, 23, 4, 11, 16, 23,
   6, 10, 15, 21, 6, 10, 15, 21, 6, 10, 15, 21, 6, 10, 15, 21]

/-- All-ones 32-bit mask, used for bitwise complement. -/
def mask32 : Nat := 4294967295

/-- Left rotation of a 32-bit word. -/
def rotl32 (x s : Nat) : Nat :=
  ((x <<< s) ||| (x >>> (32 - s))) % 4294967296

/-- One of the 64 MD5 rounds on state (a, b, c, d), message words M. -/
def md5Round (M : List Nat) (st : Nat × Nat × Nat × Nat) (i : Nat) : Nat × Nat × Nat × Nat :=
  let (a, b, c, d) := st
  let f :=
    if i < 16 then (b &&& c) ||| ((mask32 ^^^ b) &&& d)
    else if i < 32 then (d &&& b) ||| ((mask32 ^^^ d) &&& c)
    else if i < 48 then b ^^^ c ^^^ d
    else c ^^^ (b ||| (mask32 ^^^ d))
  let g :=
    if i < 16 then i
    else if i < 32 then (5 * i + 1) % 16
    else if i < 48 then (3 * i + 5) % 16
    else (7 * i) % 16
  let tmp := (f + a + md5K.getD i 0 + M.getD g 0) % 4294967296
  (d, (b + rotl32 tmp (md5S.getD i 0)) % 4294967296, b, c)

/-- Process one 64-byte block (little-endian words) into the MD5 state. -/
def md5ProcessBlock (st : Nat × Nat × Nat × Nat) (block : List Nat) : Nat × Nat × Nat × Nat :=
  let M := (List.range 16).map (fun g =>
    block.getD (4 * g) 0 + 256 * block.getD (4 * g + 1) 0 +
      65536 * block.getD (4 * g + 2) 0 + 16777216 * block.getD (4 * g + 3) 0)
  let (a, b, c, d) := (List.range 64).foldl (md5Round M) st
  let (a0, b0, c0, d0) := st
  ((a0 + a) % 4294967296, (b0 + b) % 4294967296, (c0 + c) % 4294967296, (d0 + d) % 4294967296)

/-- MD5 padding: 0x80, zeros to 56 mod 64, then the 64-bit little-endian bit length. -/
def md5Pad (msg : List Nat) : List Nat :=
  let len := msg.length
  let padZeros := (119 - len % 64) % 64
  let bitLen := (len * 8) % 18446744073709551616
  msg ++ [128] ++ List.replicate padZeros 0 ++ (List.range 8).map (fun i => bitLen / 256 ^ i % 256)

/-- Split a padded message into its 64-byte blocks. -/
def md5Blocks (padded : List Nat) : List (List Nat) :=
  (List.range (padded.length / 64)).map (fun i => (padded.drop (64 * i)).take 64)

/-- MD5 digest of a byte sequence, as 16 bytes. -/
def md5Bytes (msg : List Nat) : List Nat :=
  let (a, b, c, d) := (md5Blocks (md5Pad msg)).foldl md5ProcessBlock
    (1732584193, 4023233417, 2562383102, 271733878)
  [a, b, c, d].flatMap (fun w => (List.range 4).map (fun i => w / 256 ^ i % 256))

/-- UTF-8 encoding of one code point. -/
def utf8Enc (c : Nat) : List Nat :=
  if c < 128 then [c]
  else if c < 2048 then [192 ||| (c >>> 6), 128 ||| (c &&& 63)]
  else if c < 65536 then
    [224 ||| (c >>> 12), 128 ||| ((c >>> 6) &&& 63), 128 ||| (c &&& 63)]
  else
    [240 ||| (c >>> 18), 128 ||| ((c >>> 12) &&& 63), 128 ||| ((c >>> 6) &&& 63),
     128 ||| (c &&& 63)]

/-- UTF-8 bytes of a string (what crypto's update receives for a JS string). -/
def strBytes (s : String) : List Nat := s.data.flatMap (fun c => utf8Enc c.toNat)

/-- Lower-case hexadecimal digit. -/
def hexDigit (n : Nat) : Char := if n < 10 then Char.ofNat (48 + n) else Char.ofNat (87 + n)

/-- MD5 hex digest of a string, as produced by createHash('md5').update(s).digest('hex'). -/
def md5Hex (s : String) : String :=
  String.mk ((md5Bytes (strBytes s)).flatMap (fun b => [hexDigit (b / 16), hexDigit (b % 16)]))

/-- generateHash, identical in BaseCrawler (crawler-factory.js) and UniversalCrawler
(services/crawler.js): the MD5 hex digest of title + link.  It reads no other state. -/
def generateHash (title link : String) : String := md5Hex (title ++ link)

/-! ## JS string primitives

The engine leans on a handful of JS string methods; they are modelled
structurally over character lists so that every definition evaluates. -/

/-- Whether pat is a prefix of the character list s. -/
def charsHavePrefix : List Char → List Char → Bool
  | _, [] => true
  | [], _ :: _ => false
  | c :: cs, p :: ps => c == p && charsHavePrefix cs ps

/-- Whether pat occurs somewhere in the character list s. -/
def charsContain (pat : List Char) : List Char → Bool
  | [] => charsHavePrefix [] pat
  | c :: rest => charsHavePrefix (c :: rest) pat || charsContain pat rest

/-- JS String.prototype.includes: substring containment. -/
def jsIncludes (s pat : String) : Bool := charsContain pat.data s.data

/-- JS String.prototype.startsWith. -/
def jsStartsWith (s pre : String) : Bool := charsHavePrefix s.data pre.data

/-- A whitespace character as JS trim sees it (the common ASCII ones; the
further Unicode space code points JS also strips do not occur in the claims). -/
def isJsSpace (c : Char) : Bool := c == ' ' || c == '\t' || c == '\n' || c == '\r'

/-- JS String.prototype.trim: strip leading and trailing whitespace. -/
def jsTrim (s : String) : String :=
  String.mk (((s.data.dropWhile isJsSpace).reverse.dropWhile isJsSpace).reverse)

/-! ## Session (page) pool

PuppeteerCrawler and UniversalCrawler keep a pagePool array (JS push appends at
the end, pop removes from the end) bounded by maxConcurrentPages = 5. -/

/-- A browser page handle, identified by its creation index. -/
structure Page where
  pid : Nat
deriving DecidableEq

/-- Pool state: the idle pagePool in JS array order plus a fresh-page counter
standing for browser.newPage(). -/
structure PoolState where
  pagePool : List Page
  nextPageId : Nat
deriving DecidableEq

/-- The concurrency cap, this.maxConcurrentPages = 5. -/
def maxConcurrentPages : Nat := 5

/-- getOrCreatePage: pop an idle page if the pool is nonempty, otherwise create a
fresh page.  Total function: it never waits for a page to come back. -/
def getOrCreatePage (st : PoolState) : Page × PoolState :=
  if st.pagePool.length > 0 then
    (st.pagePool.getLastD ⟨0⟩, { st with pagePool := st.pagePool.dropLast })
  else
    (⟨st.nextPageId⟩, { st with nextPageId := st.nextPageId + 1 })

/-- What became of a released page. -/
inductive PageFate where
  | pooled
  | closed
deriving DecidableEq

/-- releasePage: when the pool is under the cap, reset the page (goto about:blank)
and push it; if the reset throws, close the page instead; at capacity, close it.
resetOk models whether the goto reset succeeds. -/
def releasePage (st : PoolState) (page : Page) (resetOk : Bool) : PoolState × PageFate :=
  if st.pagePool.length < maxConcurrentPages then
    if resetOk then ({ st with pagePool := st.pagePool ++ [page] }, .pooled)
    else (st, .closed)
  else (st, .closed)

/-! ## Crawl options and validation (UniversalCrawler.validateCrawlOptions) -/

/-- The options object passed to crawlSource / validateCrawlOptions.  none models
an absent (undefined) field, for which the JS destructuring defaults apply.
Numeric fields are JS numbers used as integers, modelled as Int (so the typeof
checks of validateCrawlOptions hold by construction). -/
structure CrawlOptions where
  limit : Option Int := none
  crawlDepth : Option Int := none
  waitTime : Option Int := none
  timeout : Option Int := none
  navigationTimeout : Option Int := none
  fullContent : Option Bool := none
  followLinks : Option Bool := none
deriving DecidableEq

/-- Result object of validateCrawlOptions. -/
structure ValidationResult where
  isValid : Bool
  errors : List String
deriving DecidableEq

/-- Error message for the limit bound. -/
def limitErrMsg : String := "تعداد اخبار باید بین 1 تا 100 باشد"

/-- Error message for the crawl-depth bound. -/
def depthErrMsg : String := "عمق کرال باید بین 0 تا 5 باشد"

/-- Error message for the wait-time bound. -/
def waitErrMsg : String := "زمان انتظار باید بین 1000 تا 30000 میلی‌ثانیه باشد"

/-- Error message for the timeout bound. -/
def timeoutErrMsg : String := "Timeout باید بین 30000 تا 900000 میلی‌ثانیه باشد"

/-- Error message for the navigation-timeout bound. -/
def navTimeoutErrMsg : String := "Navigation timeout باید بین 30000 تا 900000 میلی‌ثانیه باشد"

/-- UniversalCrawler.validateCrawlOptions: checks each bound in order, pushing one
message per violated bound, and is valid exactly when no message was pushed. -/
def validateCrawlOptions (o : CrawlOptions) : ValidationResult :=
  let limit := o.limit.getD 10
  let crawlDepth := o.crawlDepth.getD 0
  let waitTime := o.waitTime.getD 3000
  let timeout := o.timeout.getD 180000
  let navigationTimeout := o.navigationTimeout.getD 120000
  let errors :=
    (if limit < 1 ∨ limit > 100 then [limitErrMsg] else []) ++
    (if crawlDepth < 0 ∨ crawlDepth > 5 then [depthErrMsg] else []) ++
    (if waitTime < 1000 ∨ waitTime > 30000 then [waitErrMsg] else []) ++
    (if timeout < 30000 ∨ timeout > 900000 then [timeoutErrMsg] else []) ++
    (if navigationTimeout < 30000 ∨ navigationTimeout > 900000 then [navTimeoutErrMsg] else [])
  { isValid := errors.isEmpty, errors := errors }

/-! ## Schedules (services/scheduler.js) -/

/-- A schedules table row as the Scheduler reads it.  none models a NULL /
absent column, handled by the JS fallbacks when the crawl options are built. -/
structure Schedule where
  id : Nat
  source_id : Nat
  cron_expression : String := ""
  is_active : Bool := true
  article_limit : Option Int := none
  crawl_depth : Option Int := none
  full_content : Option Bool := none
  timeout_ms : Option Int := none
  follow_links : Option Bool := none
deriving DecidableEq

/-- JS x || d for a nullable numeric column: null, undefined and 0 fall back to d. -/
def jsOrInt (x : Option Int) (d : Int) : Int :=
  match x with
  | none => d
  | some v => if v = 0 then d else v

/-- The crawl options built from a schedule row; the cron callback of startJob and
runJob construct the identical record (limit: article_limit || 10, crawlDepth:
crawl_depth when defined else 0, fullContent: full_content || false, timeout:
timeout_ms || 300000, followLinks: follow_links !== false). -/
def scheduleCrawlOptions (s : Schedule) : CrawlOptions :=
  { limit := some (jsOrInt s.article_limit 10)
  , crawlDepth := some (s.crawl_depth.getD 0)
  , fullContent := some (s.full_content.getD false)
  , timeout := some (jsOrInt s.timeout_ms 300000)
  , followLinks := some (s.follow_links ≠ some false) }

/-- The (sourceId, options) pair handed to crawler.crawlSource by a fire. -/
structure CrawlInvocation where
  sourceId : Nat
  options : CrawlOptions
deriving DecidableEq

/-- One cron fire of the job built by Scheduler.startJob.  The closure captures
the schedule row passed at start time but uses only its id: at dispatch time it
re-reads the row from storage (getScheduleById) and builds the crawl invocation
from that fresh row; when the row is gone it returns without crawling. -/
def cronFire (store : Nat → Option Schedule) (captured : Schedule) : Option CrawlInvocation :=
  match store captured.id with
  | none => none
  | some fresh => some { sourceId := fresh.source_id, options := scheduleCrawlOptions fresh }

/-! ## Static documents and the two fetch backends

Claim C8 compares PuppeteerCrawler.crawl and CheerioCrawler.crawl on one and the
same static HTML document set, so a loaded document is abstracted by its
selector engine: select s is the querySelectorAll / cheerio match list for
selector s in document order (querySelector and .first() take its head). -/

/-- A DOM element as the crawlers observe it: its text content and its href. -/
structure DomElement where
  textContent : String
  href : Option String
deriving DecidableEq

/-- A loaded static document, abstracted by its selector engine. -/
structure StaticDoc where
  select : String → List DomElement

/-- The reachable web: URL to document, none when navigation / fetch fails. -/
abbrev Web := String → Option StaticDoc

/-- External WHATWG URL operations (node new URL), not repository code: origin
gives protocol + host of a URL, resolve is new URL(url, base).href. -/
structure UrlLib where
  origin : String → String
  resolve : String → String → String

/-- BaseCrawler.normalizeUrl: absolute URLs pass through, root-relative URLs get
the base origin prefixed, anything else is resolved by the URL library. -/
def normalizeUrl (lib : UrlLib) (url baseUrl : String) : String :=
  if jsStartsWith url "http" then url
  else if jsStartsWith url "/" then lib.origin baseUrl ++ url
  else lib.resolve url baseUrl

/-- A news_sources row, restricted to the fields the crawl engine reads.
content_selector, link_selector and crawler_type are nullable; none also stands
for the JS-falsy empty string. -/
structure Source where
  id : Nat := 0
  name : String := ""
  base_url : String
  list_selector : String
  title_selector : String
  content_selector : Option String := none
  link_selector : Option String := none
  crawler_type : Option String := none
deriving DecidableEq

/-- An article object produced by a backend's crawl (title/link/content/hash). -/
structure CrawledArticle where
  title : String
  link : String
  content : String
  hash : String
deriving DecidableEq

deriving instance DecidableEq for Except

/-- PuppeteerCrawler.crawl: collect raw hrefs of the list-selector matches, then
for up to limit of them normalize the link, navigate, take the first
title-selector match's trimmed text (else empty), join all content-selector
matches' trimmed texts with a space when a content selector exists, and keep the
item only when the title is nonempty, discarding content unless fullContent.
Main-page navigation failure is rethrown; per-item failure is caught and the
item skipped. -/
def puppeteerCrawl (web : Web) (lib : UrlLib) (src : Source) (limit : Int)
    (fullContent : Bool) : Except String (List CrawledArticle) :=
  match web src.base_url with
  | none => .error "NavigationError"
  | some doc =>
      let links := ((doc.select src.list_selector).filterMap (fun el => el.href)).filter
        (fun h => h ≠ "")
      .ok ((links.take limit.toNat).filterMap (fun raw =>
        let link := normalizeUrl lib raw src.base_url
        match web link with
        | none => none
        | some page =>
            let title := ((page.select src.title_selector).head?.map
              (fun el => jsTrim el.textContent)).getD ""
            let content :=
              match src.content_selector with
              | some cs =>
                  String.intercalate " " ((page.select cs).map (fun el => jsTrim el.textContent))
              | none => ""
            if title ≠ "" then
              some { title := title, link := link,
                     content := if fullContent then content else "",
                     hash := generateHash title link }
            else none))

/-- CheerioCrawler.crawl: collect the normalized nonempty hrefs of the
list-selector matches, then for up to limit of them fetch the page, take the
first title-selector match's trimmed text, join the content-selector matches'
trimmed texts with a space when fullContent and a content selector exists, and
keep the item only when the title is nonempty.  Main-page fetch failure is
rethrown; per-item failure is caught and the item skipped. -/
def cheerioCrawl (web : Web) (lib : UrlLib) (src : Source) (limit : Int)
    (fullContent : Bool) : Except String (List CrawledArticle) :=
  match web src.base_url with
  | none => .error "NavigationError"
  | some doc =>
      let links := (doc.select src.list_selector).filterMap (fun el =>
        match el.href with
        | some h => if h ≠ "" then some (normalizeUrl lib h src.base_url) else none
        | none => none)
      .ok ((links.take limit.toNat).filterMap (fun link =>
        match web link with
        | none => none
        | some page =>
            let title := ((page.select src.title_selector).head?.map
              (fun el => jsTrim el.textContent)).getD ""
            let content :=
              if fullContent then
                match src.content_selector with
                | some cs =>
                    String.intercalate " " ((page.select cs).map (fun el => jsTrim el.textContent))
                | none => ""
              else ""
            if title ≠ "" then
              some { title := title, link := link, content := content,
                     hash := generateHash title link }
            else none))

/-- Number of per-item failures PuppeteerCrawler.crawl logs (the warn in the
per-item catch): items among the first limit whose navigation fails. -/
def puppeteerItemErrors (web : Web) (lib : UrlLib) (src : Source) (limit : Int) : Nat :=
  match web src.base_url with
  | none => 0
  | some doc =>
      let links := ((doc.select src.list_selector).filterMap (fun el => el.href)).filter
        (fun h => h ≠ "")
      ((links.take limit.toNat).filter (fun raw =>
        (web (normalizeUrl lib raw src.base_url)).isNone)).length

/-! ## Storage and UniversalCrawler.saveArticle -/

/-- An articles table row (the columns saveArticle writes). -/
structure ArticleRow where
  id : Nat
  source_id : Nat
  title : String
  link : String
  content : String
  hash : String
  depth : Nat
deriving DecidableEq

/-- The articles table plus an autoincrement counter. -/
structure DB where
  rows : List ArticleRow
  nextId : Nat
deriving DecidableEq

/-- The article argument of saveArticle (content defaults to empty, depth to 0,
matching article.content || empty and article.depth || 0). -/
structure ArticleInput where
  title : String
  link : String
  content : String := ""
  depth : Nat := 0
deriving DecidableEq

/-- The duplicate check query of saveArticle:
SELECT id FROM articles WHERE hash = ? OR link = ? (first matching row). -/
def findByHashOrLink (db : DB) (hash link : String) : Option ArticleRow :=
  db.rows.find? (fun r => r.hash == hash || r.link == link)

/-- What the storage engine reports to the db.run callback of the
INSERT OR IGNORE: (this.lastID, this.changes), or an error. -/
inductive InsertResult where
  | ok (lastID : Option Nat) (changes : Nat)
  | err (msg : String)
deriving DecidableEq

/-- Result of one storage insert: the report plus the storage state after it. -/
structure InsertEffect where
  res : InsertResult
  db : DB

/-- Behaviour of the storage engine at the moment of the insert.  Parameterising
over it expresses unique-constraint races with concurrent writers. -/
abbrev Storage := DB → ArticleRow → InsertEffect

/-- Storage with no concurrent writer: INSERT OR IGNORE inserts the row with a
fresh id unless a unique column (hash or link) collides, in which case it
changes nothing and reports changes = 0. -/
def honestStorage : Storage := fun db row =>
  if db.rows.any (fun r => r.hash == row.hash || r.link == row.link) then
    { res := .ok none 0, db := db }
  else
    { res := .ok (some db.nextId) 1
    , db := { rows := db.rows ++ [{ row with id := db.nextId }], nextId := db.nextId + 1 } }

/-- The value saveArticle resolves with. -/
structure SaveResult where
  id : Option Nat
  isNew : Bool
deriving DecidableEq

/-- saveArticle either resolves with a SaveResult or rethrows an error. -/
inductive SaveOutcome where
  | done (r : SaveResult)
  | thrown (msg : String)
deriving DecidableEq

/-- The unique-violation test of saveArticle's catch block: the error message
contains one of the SQLite / PostgreSQL unique-constraint phrases. -/
def isUniqueViolationMsg (msg : String) : Bool :=
  jsIncludes msg "UNIQUE constraint failed" || jsIncludes msg "duplicate key" ||
    jsIncludes msg "violates unique constraint"

/-- UniversalCrawler.saveArticle: recompute the hash from title + link, query by
hash OR link and stop with isNew = false on a match; otherwise INSERT OR IGNORE,
resolving isNew = (changes > 0); a unique-constraint error from the insert is
caught and resolved as already-exists (isNew = false), any other error is
rethrown. -/
def saveArticle (storage : Storage) (db : DB) (sourceId : Nat) (a : ArticleInput) :
    SaveOutcome × DB :=
  let hash := generateHash a.title a.link
  match findByHashOrLink db hash a.link with
  | some existing => (.done { id := some existing.id, isNew := false }, db)
  | none =>
      let row : ArticleRow :=
        { id := 0, source_id := sourceId, title := a.title, link := a.link,
          content := a.content, hash := hash, depth := a.depth }
      let eff := storage db row
      match eff.res with
      | .ok lastID changes =>
          (.done { id := if changes > 0 then lastID else none, isNew := changes > 0 }, eff.db)
      | .err msg =>
          if isUniqueViolationMsg msg then (.done { id := none, isNew := false }, eff.db)
          else (.thrown msg, eff.db)

/-- saveArticle under the isolated storage, which never reports an error; the
thrown branch is unreachable there. -/
def saveArticleRun (db : DB) (sourceId : Nat) (a : ArticleInput) : SaveResult × DB :=
  match saveArticle honestStorage db sourceId a with
  | (.done r, db') => (r, db')
  | (.thrown _, db') => ({ id := none, isNew := false }, db')

/-! ## UniversalCrawler.crawlSource and the crawl route -/

/-- A crawl_history row (the columns crawlSource's logCrawlHistory writes,
duration aside). -/
structure CrawlHistoryEntry where
  source_id : Nat
  total_found : Nat
  total_processed : Nat
  new_articles : Nat
  crawl_depth : Int
deriving DecidableEq

/-- The object crawlSource resolves with (the fields the claims mention).  Note
it has no processed, duplicates or errors field. -/
structure CrawlResult where
  success : Bool
  error : String := ""
  sourceName : String := ""
  totalArticles : Nat := 0
  newArticles : Nat := 0
  internalArticles : Nat := 0
  articles : List CrawledArticle := []
deriving DecidableEq

/-- The collaborators of a crawl run: source lookup (getSource returns active
sources only), the reachable web, and the URL library. -/
structure CrawlEnv where
  getSource : Nat → Option Source
  web : Web
  lib : UrlLib

/-- Everything observable about one crawlSource call: its result, the articles
table afterwards, whether a fetch backend was created and used, and the
crawl_history rows appended. -/
structure CrawlOutcome where
  result : CrawlResult
  db : DB
  backendInvoked : Bool
  history : List CrawlHistoryEntry

/-- createCrawler dispatch on source.crawler_type || puppeteer.  The playwright /
selenium / webdriver variants are not modelled (no claim touches them); they and
the default fall to the puppeteer backend. -/
def backendCrawl (src : Source) (web : Web) (lib : UrlLib) (limit : Int)
    (fullContent : Bool) : Except String (List CrawledArticle) :=
  if src.crawler_type.getD "puppeteer" = "cheerio" then cheerioCrawl web lib src limit fullContent
  else puppeteerCrawl web lib src limit fullContent

/-- What saveArticle reads off a backend article object: content || empty and
depth || 0 (backend articles carry no depth field). -/
def toInput (a : CrawledArticle) : ArticleInput :=
  { title := a.title, link := a.link, content := a.content, depth := 0 }

/-- The save loop of crawlSource: saveArticle over each extracted article in
order, counting the new ones and collecting them as mainArticles. -/
def saveLoop (db : DB) (sourceId : Nat) : List CrawledArticle → DB × Nat × List CrawledArticle
  | [] => (db, 0, [])
  | a :: rest =>
      let (r, db') := saveArticleRun db sourceId (toInput a)
      let (db'', n, kept) := saveLoop db' sourceId rest
      (db'', (if r.isNew then 1 else 0) + n, (if r.isNew then [a] else []) ++ kept)

/-- UniversalCrawler.crawlSource: validate the options and fail before touching
any backend when invalid; look the source up (missing source is an error caught
by the run boundary); create the backend and crawl; a backend error fails the
run; otherwise save every article, append the crawl_history row with found =
processed = number of extracted articles, and resolve success with the new
count.  Every failure path resolves (returns) rather than rejecting. -/
def crawlSource (env : CrawlEnv) (db : DB) (sourceId : Nat) (o : CrawlOptions) : CrawlOutcome :=
  let validation := validateCrawlOptions o
  if ¬ validation.isValid then
    { result := { success := false
                , error := "تنظیمات نامعتبر: " ++ String.intercalate ", " validation.errors }
    , db := db, backendInvoked := false, history := [] }
  else
    match env.getSource sourceId with
    | none =>
        { result := { success := false
                    , error := "منبع خبری با شناسه " ++ toString sourceId ++ " یافت نشد" }
        , db := db, backendInvoked := false, history := [] }
    | some source =>
        match backendCrawl source env.web env.lib (o.limit.getD 10) (o.fullContent.getD true) with
        | .error e =>
            { result := { success := false, error := e }
            , db := db, backendInvoked := true, history := [] }
        | .ok articles =>
            let (db', newCount, mainArticles) := saveLoop db sourceId articles
            { result := { success := true, sourceName := source.name
                        , totalArticles := mainArticles.length, newArticles := newCount
                        , internalArticles := 0, articles := mainArticles.take 5 }
            , db := db', backendInvoked := true
            , history := [{ source_id := sourceId, total_found := articles.length
                          , total_processed := articles.length, new_articles := newCount
                          , crawl_depth := o.crawlDepth.getD 0 }] }

/-- Response body of POST /api/crawler/crawl (routes/api.js). -/
structure ApiCrawlResponse where
  success : Bool
  processed : Nat
  new_articles : Nat
  duplicates : Nat
  errors : Nat
deriving DecidableEq

/-- The POST /api/crawler/crawl handler: it responds with result.processed || 0,
result.newArticles || 0, result.duplicates || 0 and result.errors || 0.
crawlSource's result has no processed, duplicates or errors fields, so those
three coordinates are the fallback 0. -/
def crawlerCrawlRoute (env : CrawlEnv) (db : DB) (source_id : Nat) (o : CrawlOptions) :
    ApiCrawlResponse × DB :=
  let oc := crawlSource env db source_id o
  ({ success := true, processed := 0, new_articles := oc.result.newArticles,
     duplicates := 0, errors := 0 }, oc.db)

/-! ## UniversalCrawler.extractArticleContent and crawlInternalLinks -/

/-- The alternative title selectors extractArticleContent attempts when the
primary title selector has no match. -/
def alternativeSelectors : List String :=
  ["h1", "h2", ".title", ".headline", "[class*=\"title\"]", "[class*=\"headline\"]"]

/-- Title extraction of extractArticleContent: the primary selector's first
match, else the first alternative selector whose first match has trimmed text
longer than 10 characters, else empty. -/
def extractTitleWithFallback (doc : StaticDoc) (titleSelector : String) : String :=
  match (doc.select titleSelector).head? with
  | some el => jsTrim el.textContent
  | none =>
      ((alternativeSelectors.filterMap (fun alt =>
        match (doc.select alt).head? with
        | some el =>
            if (jsTrim el.textContent).length > 10 then some (jsTrim el.textContent) else none
        | none => none)).headD "")

/-- An internal-link record collected by extractArticleContent. -/
structure LinkInfo where
  url : String
  text : String
deriving DecidableEq

/-- The value extractArticleContent resolves with. -/
structure ExtractedContent where
  title : String
  content : String
  internalLinks : List LinkInfo
deriving DecidableEq

/-- UniversalCrawler.extractArticleContent: navigate (failure yields the error
record with no links), extract the title (with fallback) when a title selector
exists, join the content matches with newlines, and collect same-origin internal
links that contain neither a fragment nor a javascript scheme, capped at 3. -/
def extractArticleContent (web : Web) (lib : UrlLib) (url : String) (sel : Source) :
    ExtractedContent :=
  match web url with
  | none => { title := "خطا در استخراج", content := "", internalLinks := [] }
  | some doc =>
      let title :=
        if sel.title_selector ≠ "" then extractTitleWithFallback doc sel.title_selector else ""
      let content :=
        match sel.content_selector with
        | some cs => String.intercalate "\n" ((doc.select cs).map (fun el => jsTrim el.textContent))
        | none => ""
      let origin := lib.origin url
      let internalLinks := ((doc.select (sel.link_selector.getD "a")).filterMap (fun el =>
        match el.href with
        | some h =>
            if h ≠ "" ∧ jsIncludes h origin ∧ ¬ jsIncludes h "#" ∧ ¬ jsIncludes h "javascript:"
            then some { url := h, text := jsTrim el.textContent }
            else none
        | none => none)).take 3
      { title := if title ≠ "" then title else "بدون عنوان"
      , content := content, internalLinks := internalLinks }

/-- The article object crawlInternalLinks builds for one internal link: the
extracted title and content, the link's url, and the level's depth. -/
def internalArticle (web : Web) (lib : UrlLib) (sel : Source) (depth : Nat)
    (linkInfo : LinkInfo) : ArticleInput :=
  { title := (extractArticleContent web lib linkInfo.url sel).title, link := linkInfo.url,
    content := (extractArticleContent web lib linkInfo.url sel).content, depth := depth }

/-- Per-link loop of UniversalCrawler.crawlInternalLinks: extract each link's
page and save it as an article at the given depth, collecting the articles
whose save was new.  The chunked Promise.allSettled execution is
sequentialised; a link whose extraction failed still yields the caught error
record of extractArticleContent and performs no recursion into deeper levels. -/
def crawlInternalLinksLoop (web : Web) (lib : UrlLib) (sourceId : Nat) (sel : Source)
    (depth : Nat) (db : DB) : List LinkInfo → List ArticleInput × DB
  | [] => ([], db)
  | linkInfo :: rest =>
      let article := internalArticle web lib sel depth linkInfo
      let (r, db') := saveArticleRun db sourceId article
      let (results, db'') := crawlInternalLinksLoop web lib sourceId sel depth db' rest
      ((if r.isNew then [article] else []) ++ results, db'')

/-- Entry of crawlInternalLinks: the depth guard, the slice(0,2) fan-out cap,
then the per-link loop saving at currentDepth + 1. -/
def crawlInternalLinks (web : Web) (lib : UrlLib) (db : DB) (links : List LinkInfo)
    (sourceId : Nat) (sel : Source) (currentDepth maxDepth : Nat) :
    List ArticleInput × DB :=
  if currentDepth ≥ maxDepth ∨ links = [] then ([], db)
  else crawlInternalLinksLoop web lib sourceId sel (currentDepth + 1) db (links.take 2)

/-! ## Scheduler fire traces (startJob / runJob) -/

/-- The storage effects of a fire, in execution order. -/
inductive SchedulerEvent where
  | crawlCompleted (result : CrawlResult)
  | lastRunUpdated (scheduleId : Nat)
deriving DecidableEq

/-- One cron fire of Scheduler.startJob run to completion: re-read the schedule
row (none: log and return), crawl, then updateLastRun.  crawlSource resolves on
every path (success or failure), so updateLastRun follows it in both cases. -/
def cronFireTrace (env : CrawlEnv) (db : DB) (store : Nat → Option Schedule)
    (captured : Schedule) : List SchedulerEvent × DB :=
  match store captured.id with
  | none => ([], db)
  | some fresh =>
      let oc := crawlSource env db fresh.source_id (scheduleCrawlOptions fresh)
      ([.crawlCompleted oc.result, .lastRunUpdated fresh.id], oc.db)

/-- Scheduler.runJob (manual one-shot) run to completion: read the schedule row
by id, crawl, then updateLastRun - the same crawl-then-record path. -/
def runJobTrace (env : CrawlEnv) (db : DB) (store : Nat → Option Schedule)
    (scheduleId : Nat) : List SchedulerEvent × DB :=
  match store scheduleId with
  | none => ([], db)
  | some schedule =>
      let oc := crawlSource env db schedule.source_id (scheduleCrawlOptions schedule)
      ([.crawlCompleted oc.result, .lastRunUpdated schedule.id], oc.db)

/-- The row an isolated insert writes for an article (fresh id, recomputed
hash, the article's depth). -/
def insertedRow (db : DB) (sid : Nat) (a : ArticleInput) : ArticleRow :=
  { id := db.nextId, source_id := sid, title := a.title, link := a.link,
    content := a.content, hash := generateHash a.title a.link, depth := a.depth }

/-- The table after an isolated insert of an article. -/
def insertedDB (db : DB) (sid : Nat) (a : ArticleInput) : DB :=
  { rows := db.rows ++ [insertedRow db sid a], nextId := db.nextId + 1 }

/-! ## Concrete fixtures used by witnesses and counterexamples -/

/-- A trivial URL library for concrete scenarios (absolute URLs pass through
normalizeUrl before it is ever consulted). -/
def lib0 : UrlLib := ⟨fun _ => "", fun u _ => u⟩

/-- An empty articles table. -/
def dbEmpty : DB := ⟨[], 1⟩

/-- Schedule row as captured by startJob's closure at start time. -/
def capturedSched : Schedule := { id := 7, source_id := 3, article_limit := some 10 }

/-- The same schedule row after an edit raised article_limit to 25. -/
def editedSched : Schedule := { id := 7, source_id := 3, article_limit := some 25 }

/-- Schedule storage after the edit: row 7 now carries the edited values. -/
def schedStore : Nat → Option Schedule := fun i => if i = 7 then some editedSched else none

/-- An environment whose source lookup finds nothing, so every crawl run fails. -/
def envFail : CrawlEnv := ⟨fun _ => none, fun _ => none, lib0⟩

/-- Item page offering one title element. -/
def itemDocC5 (t : String) : StaticDoc :=
  ⟨fun s => if s = "h1.t" then [{ textContent := t, href := none }] else []⟩

/-- List page offering five item links. -/
def mainDocC5 : StaticDoc :=
  ⟨fun s => if s = "a.item" then
      [⟨"i1", some "http://site/a1"⟩, ⟨"i2", some "http://site/a2"⟩,
       ⟨"i3", some "http://site/a3"⟩, ⟨"i4", some "http://site/a4"⟩,
       ⟨"i5", some "http://site/a5"⟩] else []⟩

/-- Web with five listed items of which the third page fails to load. -/
def webC5 : Web := fun u =>
  if u = "http://site/" then some mainDocC5
  else if u = "http://site/a1" then some (itemDocC5 "Title 1")
  else if u = "http://site/a2" then some (itemDocC5 "Title 2")
  else if u = "http://site/a4" then some (itemDocC5 "Title 4")
  else if u = "http://site/a5" then some (itemDocC5 "Title 5")
  else none

/-- The source of the five-item scenario (default puppeteer backend). -/
def srcC5 : Source :=
  { id := 1, base_url := "http://site/", list_selector := "a.item", title_selector := "h1.t" }

/-- Environment of the five-item scenario. -/
def envC5 : CrawlEnv := ⟨fun i => if i = 1 then some srcC5 else none, webC5, lib0⟩

/-- Options left entirely at their defaults (valid). -/
def optsC5 : CrawlOptions := {}

/-- A page whose primary title selector has no match but whose h1 would satisfy
the alternative-selector fallback of extractArticleContent. -/
def fallbackDoc : StaticDoc :=
  ⟨fun s => if s = "h1" then [{ textContent := "A sufficiently long headline", href := none }]
    else []⟩

/-- List page of the fallback scenario, offering one item link. -/
def fallbackListDoc : StaticDoc :=
  ⟨fun s => if s = "a.list" then [⟨"x", some "http://f/art"⟩] else []⟩

/-- Web of the fallback scenario. -/
def fallbackWeb : Web := fun u =>
  if u = "http://f/" then some fallbackListDoc
  else if u = "http://f/art" then some fallbackDoc
  else none

/-- Source of the fallback scenario: its title selector matches nothing on the
item page. -/
def srcFallback : Source :=
  { base_url := "http://f/", list_selector := "a.list", title_selector := "div.missing",
    crawler_type := some "cheerio" }

/-- A stored article row used by the dedup witness. -/
def rowC2 : ArticleRow :=
  { id := 11, source_id := 1, title := "سلام", link := "http://x/1", content := "",
    hash := generateHash "سلام" "http://x/1", depth := 0 }

/-- A table already holding rowC2. -/
def dbC2 : DB := ⟨[rowC2], 12⟩

/-- The same article arriving again. -/
def artC2 : ArticleInput := { title := "سلام", link := "http://x/1" }

/-- A unique-constraint error message as SQLite surfaces it. -/
def uerrMsg : String := "UNIQUE constraint failed: articles.hash"

/-! ## Theorems -/

/-- Sanity: the MD5 embedding reproduces the RFC 1321 digest of the empty string. -/
theorem md5Hex_empty_vector : md5Hex "" = "d41d8cd98f00b204e9800998ecf8427e" := by decide

/-- Sanity: the MD5 embedding reproduces the RFC 1321 digest of abc. -/
theorem md5Hex_abc_vector : md5Hex "abc" = "900150983cd24fb0d6963f7d28e17f72" := by decide

/-- Claim C1: the article fingerprint is a deterministic pure function of the
concatenation title ++ link - it equals the MD5 hex digest of title + link, and
any two (title, link) pairs with the same concatenation receive the same
fingerprint, independent of source, depth or other state (generateHash takes no
other argument). -/
theorem generateHash_is_md5_of_concat (t₁ l₁ t₂ l₂ : String) (h : t₁ ++ l₁ = t₂ ++ l₂) :
    generateHash t₁ l₁ = md5Hex (t₁ ++ l₁) ∧ generateHash t₁ l₁ = generateHash t₂ l₂ := by
  refine ⟨rfl, ?_⟩
  unfold generateHash
  rw [h]

/-- Witness for C1 at a concrete pair of splittings of one concatenation. -/
theorem generateHash_is_md5_of_concat_witness :
    ("iran" ++ "news" = "irann" ++ "ews") ∧
      (generateHash "iran" "news" = md5Hex ("iran" ++ "news") ∧
        generateHash "iran" "news" = generateHash "irann" "ews") :=
  ⟨by decide, generateHash_is_md5_of_concat "iran" "news" "irann" "ews" (by decide)⟩

/-- Claim C10: the page pool never exceeds the cap of 5 idle pages; a released
page is reset and pushed exactly when the pool is under the cap and the reset
succeeds, and otherwise it is closed and the pool is left untouched (never
re-entered); acquire pops the most recent idle page or creates a fresh one,
never blocking. -/
theorem pagePool_invariants (st : PoolState) (p : Page) (ok : Bool)
    (hcap : st.pagePool.length ≤ maxConcurrentPages) :
    ((releasePage st p ok).1.pagePool.length ≤ maxConcurrentPages) ∧
    ((releasePage st p ok).2 = PageFate.pooled ↔
      st.pagePool.length < maxConcurrentPages ∧ ok = true ∧
        (releasePage st p ok).1.pagePool = st.pagePool ++ [p]) ∧
    ((releasePage st p ok).2 = PageFate.closed → (releasePage st p ok).1 = st) ∧
    (st.pagePool.length > 0 →
      getOrCreatePage st =
        (st.pagePool.getLastD ⟨0⟩, { st with pagePool := st.pagePool.dropLast })) ∧
    (st.pagePool.length = 0 →
      getOrCreatePage st = (⟨st.nextPageId⟩, { st with nextPageId := st.nextPageId + 1 })) := by
  have hget : (st.pagePool.length > 0 →
      getOrCreatePage st =
        (st.pagePool.getLastD ⟨0⟩, { st with pagePool := st.pagePool.dropLast })) ∧
      (st.pagePool.length = 0 →
        getOrCreatePage st = (⟨st.nextPageId⟩, { st with nextPageId := st.nextPageId + 1 })) := by
    constructor
    · intro hpos
      unfold getOrCreatePage
      rw [if_pos hpos]
    · intro hzero
      unfold getOrCreatePage
      rw [if_neg (by omega)]
  unfold releasePage
  by_cases h1 : st.pagePool.length < maxConcurrentPages
  · by_cases h2 : ok = true
    · subst h2
      rw [if_pos h1, if_pos rfl]
      refine ⟨?_, by simp [h1], by simp, hget.1, hget.2⟩
      simpa [List.length_append] using h1
    · rw [if_pos h1, if_neg h2]
      exact ⟨hcap, by simp [h2], by simp, hget.1, hget.2⟩
  · rw [if_neg h1]
    exact ⟨hcap, by simp [h1], by simp, hget.1, hget.2⟩

/-- Witness for C10 at a pool holding one idle page. -/
theorem pagePool_invariants_witness :
    ((⟨[⟨3⟩], 4⟩ : PoolState).pagePool.length ≤ maxConcurrentPages) ∧
      (((releasePage ⟨[⟨3⟩], 4⟩ ⟨9⟩ true).1.pagePool.length ≤ maxConcurrentPages) ∧
      ((releasePage ⟨[⟨3⟩], 4⟩ ⟨9⟩ true).2 = PageFate.pooled ↔
        (⟨[⟨3⟩], 4⟩ : PoolState).pagePool.length < maxConcurrentPages ∧ true = true ∧
          (releasePage ⟨[⟨3⟩], 4⟩ ⟨9⟩ true).1.pagePool =
            (⟨[⟨3⟩], 4⟩ : PoolState).pagePool ++ [⟨9⟩]) ∧
      ((releasePage ⟨[⟨3⟩], 4⟩ ⟨9⟩ true).2 = PageFate.closed →
        (releasePage ⟨[⟨3⟩], 4⟩ ⟨9⟩ true).1 = ⟨[⟨3⟩], 4⟩) ∧
      ((⟨[⟨3⟩], 4⟩ : PoolState).pagePool.length > 0 →
        getOrCreatePage ⟨[⟨3⟩], 4⟩ =
          ((⟨[⟨3⟩], 4⟩ : PoolState).pagePool.getLastD ⟨0⟩,
            { (⟨[⟨3⟩], 4⟩ : PoolState) with
                pagePool := (⟨[⟨3⟩], 4⟩ : PoolState).pagePool.dropLast }) ) ∧
      ((⟨[⟨3⟩], 4⟩ : PoolState).pagePool.length = 0 →
        getOrCreatePage ⟨[⟨3⟩], 4⟩ =
          (⟨4⟩, { (⟨[⟨3⟩], 4⟩ : PoolState) with nextPageId := 4 + 1 }))) :=
  ⟨by decide, pagePool_invariants ⟨[⟨3⟩], 4⟩ ⟨9⟩ true (by decide)⟩

/-- Claim C6: a cron fire reads the schedule row fresh from storage by the
captured row's id: the invocation it dispatches is built entirely from the
fresh row (in particular its article_limit), and two jobs whose captured rows
share an id fire identically, so an edit between two fires takes effect at the
second fire without a restart. -/
theorem cronFire_reads_fresh (captured : Schedule) (store : Nat → Option Schedule)
    (fresh : Schedule) (h : store captured.id = some fresh) :
    cronFire store captured =
      some { sourceId := fresh.source_id, options := scheduleCrawlOptions fresh } ∧
    (scheduleCrawlOptions fresh).limit = some (jsOrInt fresh.article_limit 10) ∧
    (∀ captured₂ : Schedule, captured₂.id = captured.id →
      cronFire store captured₂ = cronFire store captured) := by
  refine ⟨?_, rfl, ?_⟩
  · unfold cronFire
    rw [h]
  · intro c₂ hid
    unfold cronFire
    rw [hid]

/-- Witness for C6: the job captured article_limit 10, the store now holds 25;
the fire uses 25. -/
theorem cronFire_reads_fresh_witness :
    schedStore capturedSched.id = some editedSched ∧
      (cronFire schedStore capturedSched =
        some { sourceId := editedSched.source_id, options := scheduleCrawlOptions editedSched } ∧
      (scheduleCrawlOptions editedSched).limit = some (jsOrInt editedSched.article_limit 10) ∧
      (∀ captured₂ : Schedule, captured₂.id = capturedSched.id →
        cronFire schedStore captured₂ = cronFire schedStore capturedSched)) :=
  ⟨by decide, cronFire_reads_fresh capturedSched schedStore editedSched (by decide)⟩

/-- Claim C7: for a cron fire and for a manual one-shot run alike, the
schedule's last_run update is the event immediately after the crawl completes -
and it happens unconditionally of the crawl result, because crawlSource
resolves (with success true or false) on every path rather than rejecting. -/
theorem lastRun_after_crawl (env : CrawlEnv) (db : DB) (store : Nat → Option Schedule)
    (captured : Schedule) (fresh : Schedule) (h : store captured.id = some fresh) :
    (cronFireTrace env db store captured).1 =
      [SchedulerEvent.crawlCompleted
         (crawlSource env db fresh.source_id (scheduleCrawlOptions fresh)).result,
       SchedulerEvent.lastRunUpdated fresh.id] ∧
    (runJobTrace env db store captured.id).1 =
      [SchedulerEvent.crawlCompleted
         (crawlSource env db fresh.source_id (scheduleCrawlOptions fresh)).result,
       SchedulerEvent.lastRunUpdated fresh.id] := by
  unfold cronFireTrace runJobTrace
  rw [h]
  exact ⟨rfl, rfl⟩

/-- Witness for C7 in an environment where the crawl fails (no source found):
last_run is still recorded, after the completed crawl. -/
theorem lastRun_after_crawl_witness :
    schedStore capturedSched.id = some editedSched ∧
      ((cronFireTrace envFail dbEmpty schedStore capturedSched).1 =
        [SchedulerEvent.crawlCompleted
           (crawlSource envFail dbEmpty editedSched.source_id
             (scheduleCrawlOptions editedSched)).result,
         SchedulerEvent.lastRunUpdated editedSched.id] ∧
      (runJobTrace envFail dbEmpty schedStore capturedSched.id).1 =
        [SchedulerEvent.crawlCompleted
           (crawlSource envFail dbEmpty editedSched.source_id
             (scheduleCrawlOptions editedSched)).result,
         SchedulerEvent.lastRunUpdated editedSched.id]) :=
  ⟨by decide, lastRun_after_crawl envFail dbEmpty schedStore capturedSched editedSched (by decide)⟩

/-- Membership in a conditional singleton list. -/
theorem mem_ite_singleton {c : Prop} [Decidable c] {msg x : String} :
    x ∈ (if c then [msg] else []) ↔ c ∧ x = msg := by
  split <;> simp_all

/-- A conditional singleton list is empty exactly when its condition fails. -/
theorem ite_singleton_eq_nil {c : Prop} [Decidable c] {msg : String} :
    ((if c then [msg] else []) = []) ↔ ¬ c := by
  split <;> simp_all

/-- validateCrawlOptions accepts exactly when all five destructured values are
inside their bounds. -/
theorem validate_isValid_iff (o : CrawlOptions) :
    (validateCrawlOptions o).isValid = true ↔
      (1 ≤ o.limit.getD 10 ∧ o.limit.getD 10 ≤ 100) ∧
      (0 ≤ o.crawlDepth.getD 0 ∧ o.crawlDepth.getD 0 ≤ 5) ∧
      (1000 ≤ o.waitTime.getD 3000 ∧ o.waitTime.getD 3000 ≤ 30000) ∧
      (30000 ≤ o.timeout.getD 180000 ∧ o.timeout.getD 180000 ≤ 900000) ∧
      (30000 ≤ o.navigationTimeout.getD 120000 ∧ o.navigationTimeout.getD 120000 ≤ 900000) := by
  simp only [validateCrawlOptions, List.isEmpty_iff, List.append_eq_nil,
    ite_singleton_eq_nil]
  omega

/-- The limit violation always contributes its message to the error list. -/
theorem limit_msg_of_violation (o : CrawlOptions)
    (h : o.limit.getD 10 < 1 ∨ o.limit.getD 10 > 100) :
    limitErrMsg ∈ (validateCrawlOptions o).errors := by
  simp only [validateCrawlOptions, List.mem_append, mem_ite_singleton]
  tauto

/-- The crawl-depth violation always contributes its message to the error list. -/
theorem depth_msg_of_violation (o : CrawlOptions)
    (h : o.crawlDepth.getD 0 < 0 ∨ o.crawlDepth.getD 0 > 5) :
    depthErrMsg ∈ (validateCrawlOptions o).errors := by
  simp only [validateCrawlOptions, List.mem_append, mem_ite_singleton]
  tauto

/-- The wait-time violation always contributes its message to the error list. -/
theorem wait_msg_of_violation (o : CrawlOptions)
    (h : o.waitTime.getD 3000 < 1000 ∨ o.waitTime.getD 3000 > 30000) :
    waitErrMsg ∈ (validateCrawlOptions o).errors := by
  simp only [validateCrawlOptions, List.mem_append, mem_ite_singleton]
  tauto

/-- The timeout violation always contributes its message to the error list. -/
theorem timeout_msg_of_violation (o : CrawlOptions)
    (h : o.timeout.getD 180000 < 30000 ∨ o.timeout.getD 180000 > 900000) :
    timeoutErrMsg ∈ (validateCrawlOptions o).errors := by
  simp only [validateCrawlOptions, List.mem_append, mem_ite_singleton]
  tauto

/-- Claim C3: crawlSource accepts options only within the bounds limit 1..100,
crawlDepth 0..5, timeout 30000..900000 and waitTime 1000..30000; every violated
bound contributes its named message to the collected error list regardless of
the other bounds; and the options (limit 0, crawlDepth 6, timeout 100) are
rejected with exactly the three messages naming those violations, with the
fetch backend never invoked. -/
theorem crawlSource_validation (o : CrawlOptions) (env : CrawlEnv) (db : DB) (sid : Nat)
    (hval : (validateCrawlOptions o).isValid = true) :
    ((1 ≤ o.limit.getD 10 ∧ o.limit.getD 10 ≤ 100) ∧
     (0 ≤ o.crawlDepth.getD 0 ∧ o.crawlDepth.getD 0 ≤ 5) ∧
     (30000 ≤ o.timeout.getD 180000 ∧ o.timeout.getD 180000 ≤ 900000) ∧
     (1000 ≤ o.waitTime.getD 3000 ∧ o.waitTime.getD 3000 ≤ 30000)) ∧
    (∀ o₂ : CrawlOptions,
      ((o₂.limit.getD 10 < 1 ∨ o₂.limit.getD 10 > 100) →
        limitErrMsg ∈ (validateCrawlOptions o₂).errors) ∧
      ((o₂.crawlDepth.getD 0 < 0 ∨ o₂.crawlDepth.getD 0 > 5) →
        depthErrMsg ∈ (validateCrawlOptions o₂).errors) ∧
      ((o₂.waitTime.getD 3000 < 1000 ∨ o₂.waitTime.getD 3000 > 30000) →
        waitErrMsg ∈ (validateCrawlOptions o₂).errors) ∧
      ((o₂.timeout.getD 180000 < 30000 ∨ o₂.timeout.getD 180000 > 900000) →
        timeoutErrMsg ∈ (validateCrawlOptions o₂).errors)) ∧
    (validateCrawlOptions { limit := some 0, crawlDepth := some 6, timeout := some 100 } =
      { isValid := false, errors := [limitErrMsg, depthErrMsg, timeoutErrMsg] }) ∧
    ((crawlSource env db sid
        { limit := some 0, crawlDepth := some 6, timeout := some 100 }).backendInvoked = false) ∧
    ((crawlSource env db sid
        { limit := some 0, crawlDepth := some 6, timeout := some 100 }).result.success = false) := by
  have hbounds := (validate_isValid_iff o).mp hval
  refine ⟨⟨hbounds.1, hbounds.2.1, hbounds.2.2.2.1, hbounds.2.2.1⟩, ?_, by decide, ?_, ?_⟩
  · intro o₂
    exact ⟨limit_msg_of_violation o₂, depth_msg_of_violation o₂,
      wait_msg_of_violation o₂, timeout_msg_of_violation o₂⟩
  · unfold crawlSource
    rw [if_pos (by decide)]
  · unfold crawlSource
    rw [if_pos (by decide)]

/-- Witness for C3: the default options are accepted and satisfy the bounds. -/
theorem crawlSource_validation_witness :
    (validateCrawlOptions optsC5).isValid = true ∧
      (((1 ≤ optsC5.limit.getD 10 ∧ optsC5.limit.getD 10 ≤ 100) ∧
        (0 ≤ optsC5.crawlDepth.getD 0 ∧ optsC5.crawlDepth.getD 0 ≤ 5) ∧
        (30000 ≤ optsC5.timeout.getD 180000 ∧ optsC5.timeout.getD 180000 ≤ 900000) ∧
        (1000 ≤ optsC5.waitTime.getD 3000 ∧ optsC5.waitTime.getD 3000 ≤ 30000)) ∧
      (∀ o₂ : CrawlOptions,
        ((o₂.limit.getD 10 < 1 ∨ o₂.limit.getD 10 > 100) →
          limitErrMsg ∈ (validateCrawlOptions o₂).errors) ∧
        ((o₂.crawlDepth.getD 0 < 0 ∨ o₂.crawlDepth.getD 0 > 5) →
          depthErrMsg ∈ (validateCrawlOptions o₂).errors) ∧
        ((o₂.waitTime.getD 3000 < 1000 ∨ o₂.waitTime.getD 3000 > 30000) →
          waitErrMsg ∈ (validateCrawlOptions o₂).errors) ∧
        ((o₂.timeout.getD 180000 < 30000 ∨ o₂.timeout.getD 180000 > 900000) →
          timeoutErrMsg ∈ (validateCrawlOptions o₂).errors)) ∧
      (validateCrawlOptions { limit := some 0, crawlDepth := some 6, timeout := some 100 } =
        { isValid := false, errors := [limitErrMsg, depthErrMsg, timeoutErrMsg] }) ∧
      ((crawlSource envFail dbEmpty 1
          { limit := some 0, crawlDepth := some 6, timeout := some 100 }).backendInvoked = false) ∧
      ((crawlSource envFail dbEmpty 1
          { limit := some 0, crawlDepth := some 6, timeout := some 100 }).result.success
        = false)) :=
  ⟨by decide, crawlSource_validation optsC5 envFail dbEmpty 1 (by decide)⟩

/-- Claim C2: saveArticle first queries storage by fingerprint OR link, and a
match resolves isNew = false with the storage untouched; and when the insert
itself surfaces a unique-constraint violation (a concurrent identical insert),
saveArticle catches it and resolves isNew = false instead of rethrowing. -/
theorem saveArticle_dedup (storage : Storage) (db : DB) (sid : Nat) (a : ArticleInput)
    (r : ArticleRow) (msg : String)
    (hfound : findByHashOrLink db (generateHash a.title a.link) a.link = some r)
    (hmsg : isUniqueViolationMsg msg = true) :
    saveArticle storage db sid a = (.done { id := some r.id, isNew := false }, db) ∧
    (∀ db₂ : DB, findByHashOrLink db₂ (generateHash a.title a.link) a.link = none →
      saveArticle (fun d _ => { res := .err msg, db := d }) db₂ sid a =
        (.done { id := none, isNew := false }, db₂)) := by
  constructor
  · simp only [saveArticle]
    rw [hfound]
  · intro db₂ h₂
    simp only [saveArticle]
    rw [h₂]
    simp [hmsg]

/-- Witness for C2: the concrete duplicate row is found by the fingerprint-or-
link query, and a concrete SQLite unique-constraint message is reinterpreted as
already-exists on the empty table. -/
theorem saveArticle_dedup_witness :
    findByHashOrLink dbC2 (generateHash artC2.title artC2.link) artC2.link = some rowC2 ∧
    isUniqueViolationMsg uerrMsg = true ∧
    saveArticle honestStorage dbC2 1 artC2 =
      (.done { id := some rowC2.id, isNew := false }, dbC2) ∧
    saveArticle (fun d _ => { res := .err uerrMsg, db := d }) dbEmpty 1 artC2 =
      (.done { id := none, isNew := false }, dbEmpty) := by
  have H := saveArticle_dedup honestStorage dbC2 1 artC2 rowC2 uerrMsg (by decide) (by decide)
  exact ⟨by decide, by decide, H.1, H.2 dbEmpty (by decide)⟩

/-- saveArticleRun when the duplicate query hits: nothing is written. -/
theorem saveArticle_honest_found {db : DB} {sid : Nat} {a : ArticleInput} {r : ArticleRow}
    (h : findByHashOrLink db (generateHash a.title a.link) a.link = some r) :
    saveArticleRun db sid a = ({ id := some r.id, isNew := false }, db) := by
  unfold saveArticleRun
  simp only [saveArticle]
  rw [h]

/-- saveArticleRun when the duplicate query misses: the isolated storage cannot
collide either (the two checks use the same predicate), so the row is inserted
with a fresh id at the article's depth. -/
theorem saveArticle_honest_notfound {db : DB} {sid : Nat} {a : ArticleInput}
    (h : findByHashOrLink db (generateHash a.title a.link) a.link = none) :
    saveArticleRun db sid a = ({ id := some db.nextId, isNew := true }, insertedDB db sid a) := by
  have hany : db.rows.any
      (fun r => r.hash == generateHash a.title a.link || r.link == a.link) = false := by
    rw [List.any_eq_false]
    intro x hx
    have hx2 := List.find?_eq_none.mp h x hx
    simpa using hx2
  unfold saveArticleRun
  simp only [saveArticle, honestStorage]
  rw [h]
  simp only [hany]
  simp [insertedDB, insertedRow]

/-- Case analysis for saveArticleRun. -/
theorem saveArticleRun_spec (db : DB) (sid : Nat) (a : ArticleInput) :
    (∃ r, findByHashOrLink db (generateHash a.title a.link) a.link = some r ∧
      saveArticleRun db sid a = ({ id := some r.id, isNew := false }, db)) ∨
    (findByHashOrLink db (generateHash a.title a.link) a.link = none ∧
      saveArticleRun db sid a = ({ id := some db.nextId, isNew := true }, insertedDB db sid a)) := by
  cases h : findByHashOrLink db (generateHash a.title a.link) a.link with
  | none => exact .inr ⟨rfl, saveArticle_honest_notfound h⟩
  | some r => exact .inl ⟨r, rfl, saveArticle_honest_found h⟩

/-- saveArticleRun never removes rows. -/
theorem saveArticleRun_mono {db : DB} {sid : Nat} {a : ArticleInput} {r : ArticleRow}
    (h : r ∈ db.rows) : r ∈ (saveArticleRun db sid a).2.rows := by
  rcases saveArticleRun_spec db sid a with ⟨x, _, he⟩ | ⟨_, he⟩
  · rw [he]
    exact h
  · rw [he]
    exact List.mem_append_left _ h

/-- A row present after saveArticleRun was present before or has the article's
depth. -/
theorem saveArticleRun_mem_rows {db : DB} {sid : Nat} {a : ArticleInput} {r : ArticleRow}
    (h : r ∈ (saveArticleRun db sid a).2.rows) : r ∈ db.rows ∨ r.depth = a.depth := by
  rcases saveArticleRun_spec db sid a with ⟨x, _, he⟩ | ⟨_, he⟩
  · rw [he] at h
    exact .inl h
  · rw [he] at h
    rcases (by simpa [insertedDB] using h : r ∈ db.rows ∨ r = insertedRow db sid a) with h' | h'
    · exact .inl h'
    · right
      rw [h']
      rfl

/-- After saveArticleRun, some row matches the article's hash or link. -/
theorem saveArticleRun_establishes (db : DB) (sid : Nat) (a : ArticleInput) :
    ∃ r ∈ (saveArticleRun db sid a).2.rows,
      (r.hash == generateHash a.title a.link || r.link == a.link) = true := by
  rcases saveArticleRun_spec db sid a with ⟨x, hf, he⟩ | ⟨hf, he⟩
  · rw [he]
    have hf2 : db.rows.find?
        (fun rr => rr.hash == generateHash a.title a.link || rr.link == a.link) = some x := hf
    have hp := List.find?_some hf2
    exact ⟨x, List.mem_of_find?_eq_some hf2, hp⟩
  · rw [he]
    refine ⟨insertedRow db sid a, ?_, ?_⟩
    · exact List.mem_append_right _ (List.mem_singleton_self _)
    · simp [insertedRow]

/-- The save loop never removes rows. -/
theorem saveLoop_mono {sid : Nat} {r : ArticleRow} :
    ∀ (l : List CrawledArticle) (db : DB), r ∈ db.rows → r ∈ (saveLoop db sid l).1.rows := by
  intro l
  induction l with
  | nil =>
      intro db h
      simpa [saveLoop] using h
  | cons a rest ih =>
      intro db h
      rcases hs : saveArticleRun db sid (toInput a) with ⟨r1, db'⟩
      have h' : r ∈ db'.rows := by
        have hm := @saveArticleRun_mono db sid (toInput a) r h
        rw [hs] at hm
        exact hm
      have h2 := ih db' h'
      rcases hl : saveLoop db' sid rest with ⟨db2, n2, kept2⟩
      rw [hl] at h2
      simp only [saveLoop, hs, hl]
      exact h2

/-- After the save loop, every processed article has a matching row (by hash or
by link) in the table. -/
theorem saveLoop_establishes {sid : Nat} :
    ∀ (l : List CrawledArticle) (db : DB) (a : CrawledArticle), a ∈ l →
      ∃ r ∈ (saveLoop db sid l).1.rows,
        (r.hash == generateHash a.title a.link || r.link == a.link) = true := by
  intro l
  induction l with
  | nil =>
      intro db a h
      cases h
  | cons b rest ih =>
      intro db a h
      rcases hs : saveArticleRun db sid (toInput b) with ⟨r1, db'⟩
      rcases List.mem_cons.mp h with heq | hmem
      · subst heq
        have hest := saveArticleRun_establishes db sid (toInput a)
        rw [hs] at hest
        obtain ⟨r, hr, hp⟩ := hest
        have hr2 := @saveLoop_mono sid r rest db' hr
        rcases hl : saveLoop db' sid rest with ⟨db2, n2, kept2⟩
        rw [hl] at hr2
        refine ⟨r, ?_, hp⟩
        simp only [saveLoop, hs, hl]
        exact hr2
      · obtain ⟨r, hr, hp⟩ := ih db' a hmem
        rcases hl : saveLoop db' sid rest with ⟨db2, n2, kept2⟩
        rw [hl] at hr
        refine ⟨r, ?_, hp⟩
        simp only [saveLoop, hs, hl]
        exact hr

/-- When every article already has a matching row, the save loop writes
nothing, counts zero new articles and keeps no mainArticles. -/
theorem saveLoop_all_dup {sid : Nat} :
    ∀ (l : List CrawledArticle) (db : DB),
      (∀ a ∈ l, ∃ r ∈ db.rows,
        (r.hash == generateHash a.title a.link || r.link == a.link) = true) →
      saveLoop db sid l = (db, 0, []) := by
  intro l
  induction l with
  | nil =>
      intro db _
      rfl
  | cons b rest ih =>
      intro db hall
      obtain ⟨r, hr, hp⟩ := hall b (List.mem_cons_self _ _)
      have hsome : (db.rows.find? (fun rr =>
          rr.hash == generateHash b.title b.link || rr.link == b.link)).isSome := by
        rw [List.find?_isSome]
        exact ⟨r, hr, hp⟩
      obtain ⟨x, hx⟩ := Option.isSome_iff_exists.mp hsome
      have hfound : findByHashOrLink db (generateHash (toInput b).title (toInput b).link)
          (toInput b).link = some x := hx
      have hsave := @saveArticle_honest_found db sid (toInput b) x hfound
      have hrest := ih db (fun a ha => hall a (List.mem_cons_of_mem _ ha))
      simp only [saveLoop, hsave, hrest]
      simp

/-- Claim C9: crawling the same source twice against the same environment is
idempotent - the second run's fingerprint-or-link lookups all hit, so it
reports zero new articles and leaves the articles table exactly as the first
run left it. -/
theorem crawl_twice_idempotent (env : CrawlEnv) (db : DB) (sid : Nat) (o : CrawlOptions) :
    (crawlSource env (crawlSource env db sid o).db sid o).result.newArticles = 0 ∧
    (crawlSource env (crawlSource env db sid o).db sid o).db = (crawlSource env db sid o).db := by
  by_cases hv : (validateCrawlOptions o).isValid = true
  · cases hs : env.getSource sid with
    | none => simp [crawlSource, hv, hs]
    | some source =>
        cases hb : backendCrawl source env.web env.lib (o.limit.getD 10)
            (o.fullContent.getD true) with
        | error e => simp [crawlSource, hv, hs, hb]
        | ok articles =>
            rcases h1 : saveLoop db sid articles with ⟨db1, n1, kept1⟩
            have hdup : ∀ a ∈ articles, ∃ r ∈ db1.rows,
                (r.hash == generateHash a.title a.link || r.link == a.link) = true := by
              intro a ha
              have hest := @saveLoop_establishes sid articles db a ha
              rw [h1] at hest
              exact hest
            have h2 : saveLoop db1 sid articles = (db1, 0, []) := saveLoop_all_dup articles db1 hdup
            simp [crawlSource, hv, hs, hb, h1, h2]
  · simp [crawlSource, hv]

/-- The internal-link loop yields at most one article per processed link. -/
theorem crawlInternalLinksLoop_len {web : Web} {lib : UrlLib} {sid : Nat} {sel : Source}
    {dep : Nat} :
    ∀ (l : List LinkInfo) (db : DB),
      (crawlInternalLinksLoop web lib sid sel dep db l).1.length ≤ l.length := by
  intro l
  induction l with
  | nil =>
      intro db
      simp [crawlInternalLinksLoop]
  | cons li rest ih =>
      intro db
      rcases hs : saveArticleRun db sid (internalArticle web lib sel dep li) with ⟨r1, db'⟩
      have ihr := ih db'
      rcases hl : crawlInternalLinksLoop web lib sid sel dep db' rest with ⟨results, db2⟩
      rw [hl] at ihr
      dsimp only at ihr
      simp only [crawlInternalLinksLoop, hs, hl, List.length_cons, List.length_append]
      split <;> simp <;> omega

/-- Every article the internal-link loop yields carries the level's depth. -/
theorem crawlInternalLinksLoop_depth {web : Web} {lib : UrlLib} {sid : Nat} {sel : Source}
    {dep : Nat} :
    ∀ (l : List LinkInfo) (db : DB) (a : ArticleInput),
      a ∈ (crawlInternalLinksLoop web lib sid sel dep db l).1 → a.depth = dep := by
  intro l
  induction l with
  | nil =>
      intro db a h
      simp [crawlInternalLinksLoop] at h
  | cons li rest ih =>
      intro db a h
      rcases hs : saveArticleRun db sid (internalArticle web lib sel dep li) with ⟨r1, db'⟩
      rcases hl : crawlInternalLinksLoop web lib sid sel dep db' rest with ⟨results, db2⟩
      simp only [crawlInternalLinksLoop, hs, hl] at h
      rcases List.mem_append.mp h with h' | h'
      · obtain ⟨-, h2⟩ : r1.isNew = true ∧ a = internalArticle web lib sel dep li := by
          simpa using h'
        rw [h2]
        rfl
      · have ihr := ih db' a
        rw [hl] at ihr
        exact ihr h'

/-- A row present after the internal-link loop was present before or carries
the level's depth. -/
theorem crawlInternalLinksLoop_rows {web : Web} {lib : UrlLib} {sid : Nat} {sel : Source}
    {dep : Nat} :
    ∀ (l : List LinkInfo) (db : DB) (r : ArticleRow),
      r ∈ (crawlInternalLinksLoop web lib sid sel dep db l).2.rows →
        r ∈ db.rows ∨ r.depth = dep := by
  intro l
  induction l with
  | nil =>
      intro db r h
      exact .inl (by simpa [crawlInternalLinksLoop] using h)
  | cons li rest ih =>
      intro db r h
      rcases hs : saveArticleRun db sid (internalArticle web lib sel dep li) with ⟨r1, db'⟩
      rcases hl : crawlInternalLinksLoop web lib sid sel dep db' rest with ⟨results, db2⟩
      simp only [crawlInternalLinksLoop, hs, hl] at h
      have ihr := ih db' r
      rw [hl] at ihr
      rcases ihr h with h' | h'
      · have hmem := @saveArticleRun_mem_rows db sid (internalArticle web lib sel dep li) r
        rw [hs] at hmem
        rcases hmem h' with h2 | h2
        · exact .inl h2
        · exact .inr h2
      · exact .inr h'

/-- A row present after crawlSource's save loop was present before or was
persisted at depth 0. -/
theorem saveLoop_mem_rows {sid : Nat} :
    ∀ (l : List CrawledArticle) (db : DB) (r : ArticleRow),
      r ∈ (saveLoop db sid l).1.rows → r ∈ db.rows ∨ r.depth = 0 := by
  intro l
  induction l with
  | nil =>
      intro db r h
      exact .inl (by simpa [saveLoop] using h)
  | cons b rest ih =>
      intro db r h
      rcases hs : saveArticleRun db sid (toInput b) with ⟨r1, db'⟩
      rcases hl : saveLoop db' sid rest with ⟨db2, n2, kept2⟩
      simp only [saveLoop, hs, hl] at h
      have ihr := ih db' r
      rw [hl] at ihr
      rcases ihr h with h' | h'
      · have hmem := @saveArticleRun_mem_rows db sid (toInput b) r
        rw [hs] at hmem
        rcases hmem h' with h2 | h2
        · exact .inl h2
        · exact .inr h2
      · exact .inr h'

/-- Claim C4: no article persisted by a run has depth above the run's
crawlDepth - extractArticleContent collects at most 3 internal links per page,
crawlInternalLinks follows at most 2 of them per level and stops once the
current depth reaches maxDepth, every article or row it persists stays within
maxDepth, and the main crawl loop persists only depth-0 rows, which a
validated crawlDepth (nonnegative) always dominates. -/
theorem crawl_depth_invariant (web : Web) (lib : UrlLib) (db : DB) (links : List LinkInfo)
    (sid : Nat) (sel : Source) (d maxD : Nat) (url : String)
    (env : CrawlEnv) (o : CrawlOptions) (db₀ : DB) (sid₀ : Nat)
    (hval : (validateCrawlOptions o).isValid = true) :
    ((extractArticleContent web lib url sel).internalLinks.length ≤ 3) ∧
    ((crawlInternalLinks web lib db links sid sel d maxD).1.length ≤ 2) ∧
    (∀ a ∈ (crawlInternalLinks web lib db links sid sel d maxD).1, a.depth ≤ maxD) ∧
    (crawlInternalLinks web lib db links sid sel maxD maxD = ([], db)) ∧
    (∀ r ∈ (crawlInternalLinks web lib db links sid sel d maxD).2.rows,
      r ∈ db.rows ∨ r.depth ≤ maxD) ∧
    (∀ r ∈ (crawlSource env db₀ sid₀ o).db.rows,
      r ∈ db₀.rows ∨ ((r.depth : Int) = 0 ∧ (r.depth : Int) ≤ o.crawlDepth.getD 0)) := by
  have hc := (validate_isValid_iff o).mp hval
  refine ⟨?_, ?_, ?_, ?_, ?_, ?_⟩
  · cases hw : web url with
    | none => simp [extractArticleContent, hw]
    | some doc =>
        simp only [extractArticleContent, hw, List.length_take]
        omega
  · unfold crawlInternalLinks
    split
    · simp
    · exact le_trans (crawlInternalLinksLoop_len _ _) (by simp [List.length_take])
  · intro a hmem
    unfold crawlInternalLinks at hmem
    split at hmem
    · simp at hmem
    · rename_i hcond
      have hd := crawlInternalLinksLoop_depth _ _ _ hmem
      have hlt : d < maxD := by omega
      omega
  · unfold crawlInternalLinks
    rw [if_pos (Or.inl (le_refl maxD))]
  · intro r hmem
    unfold crawlInternalLinks at hmem
    split at hmem
    · exact .inl hmem
    · rename_i hcond
      have hlt : d < maxD := by omega
      rcases crawlInternalLinksLoop_rows _ _ _ hmem with h' | h'
      · exact .inl h'
      · exact .inr (by omega)
  · intro r hr
    cases hs : env.getSource sid₀ with
    | none =>
        simp [crawlSource, hval, hs] at hr
        exact .inl hr
    | some source =>
        cases hb : backendCrawl source env.web env.lib (o.limit.getD 10)
            (o.fullContent.getD true) with
        | error e =>
            simp [crawlSource, hval, hs, hb] at hr
            exact .inl hr
        | ok arts =>
            rcases hsl : saveLoop db₀ sid₀ arts with ⟨db1, n1, k1⟩
            simp only [crawlSource, hval, hs, hb, hsl] at hr
            have hr2 : r ∈ (saveLoop db₀ sid₀ arts).1.rows := by
              rw [hsl]
              exact hr
            rcases saveLoop_mem_rows arts db₀ r hr2 with h' | h'
            · exact .inl h'
            · refine .inr ⟨by simp [h'], ?_⟩
              rw [h']
              simpa using hc.2.1.1

/-- Witness for C4 at the five-item scenario fixtures. -/
theorem crawl_depth_invariant_witness :
    (validateCrawlOptions optsC5).isValid = true ∧
      (((extractArticleContent webC5 lib0 "http://site/a1" srcC5).internalLinks.length ≤ 3) ∧
      ((crawlInternalLinks webC5 lib0 dbEmpty [⟨"http://site/a1", "x"⟩] 1 srcC5 0 2).1.length ≤ 2) ∧
      (∀ a ∈ (crawlInternalLinks webC5 lib0 dbEmpty [⟨"http://site/a1", "x"⟩] 1 srcC5 0 2).1,
        a.depth ≤ 2) ∧
      (crawlInternalLinks webC5 lib0 dbEmpty [⟨"http://site/a1", "x"⟩] 1 srcC5 2 2 =
        ([], dbEmpty)) ∧
      (∀ r ∈ (crawlInternalLinks webC5 lib0 dbEmpty [⟨"http://site/a1", "x"⟩] 1 srcC5 0 2).2.rows,
        r ∈ dbEmpty.rows ∨ r.depth ≤ 2) ∧
      (∀ r ∈ (crawlSource envC5 dbEmpty 1 optsC5).db.rows,
        r ∈ dbEmpty.rows ∨
          ((r.depth : Int) = 0 ∧ (r.depth : Int) ≤ optsC5.crawlDepth.getD 0))) :=
  ⟨by decide, crawl_depth_invariant webC5 lib0 dbEmpty [⟨"http://site/a1", "x"⟩] 1 srcC5 0 2
    "http://site/a1" envC5 optsC5 dbEmpty 1 (by decide)⟩

/-- Collecting normalized nonempty hrefs in one pass (cheerio) equals
collecting raw hrefs, filtering the empty ones and normalizing afterwards
(puppeteer). -/
theorem filterMap_href_normalize (l : List DomElement) (f : String → String) :
    (l.filterMap (fun el =>
      match el.href with
      | some h => if h ≠ "" then some (f h) else none
      | none => none)) =
    ((l.filterMap (fun el => el.href)).filter (fun h => h ≠ "")).map f := by
  induction l with
  | nil => rfl
  | cons e t ih =>
      cases hh : e.href with
      | none => simpa [List.filterMap_cons, hh] using ih
      | some h =>
          by_cases hne : h = ""
          · simp [List.filterMap_cons, hh, hne, List.filter_cons] at ih ⊢
            exact ih
          · simp [List.filterMap_cons, hh, hne, List.filter_cons] at ih ⊢
            exact ih

/-- Claim C8 (amended): on one and the same static document set, the
browser-rendering backend and the static-HTML backend produce identical crawl
results for every source, limit and fullContent flag - same titles, same
contents, same skipping of empty-title items and the same failure behavior.
(Neither backend attempts any fallback title selector; see the
counterexample.) -/
theorem backend_extract_equiv (web : Web) (lib : UrlLib) (src : Source) (limit : Int)
    (fullContent : Bool) :
    puppeteerCrawl web lib src limit fullContent = cheerioCrawl web lib src limit fullContent := by
  unfold puppeteerCrawl cheerioCrawl
  cases hw : web src.base_url with
  | none => rfl
  | some doc =>
      simp only [filterMap_href_normalize (doc.select src.list_selector)
        (fun h => normalizeUrl lib h src.base_url), ← List.map_take, List.filterMap_map]
      rfl

/-- Counterexample to C8 as stated: the claim asserts both backends attempt a
fallback title-selector list when the primary title selector fails.  On a page
where the primary selector matches nothing but an h1 carries a long headline,
that fallback procedure (it exists only in UniversalCrawler's own
extractArticleContent) yields the headline - yet both backends extract nothing
and skip the item, so no fallback is attempted by either backend. -/
theorem backend_fallback_counterexample :
    extractTitleWithFallback fallbackDoc "div.missing" = "A sufficiently long headline" ∧
    cheerioCrawl fallbackWeb lib0 srcFallback 10 true = .ok [] ∧
    puppeteerCrawl fallbackWeb lib0 srcFallback 10 true = .ok [] := by
  refine ⟨by decide, by decide, by decide⟩

/-- Claim C5 (amended): a failure while extracting a single item is caught at
the item boundary and treated as a skip - with item 3 of 5 failing to load,
the puppeteer backend still returns the other four items and logs one item
error - and a run whose backend crawl succeeds always completes with success
and a history row carrying the found / processed / new aggregate counts.  (No
error count is tracked in the result or the history; see the counterexample.) -/
theorem crawl_partial_failure
    (env : CrawlEnv) (db : DB) (sid : Nat) (o : CrawlOptions) (source : Source)
    (hval : (validateCrawlOptions o).isValid = true)
    (hsrc : env.getSource sid = some source) :
    (∀ arts, backendCrawl source env.web env.lib (o.limit.getD 10) (o.fullContent.getD true) =
        .ok arts →
      (crawlSource env db sid o).result.success = true ∧
      (crawlSource env db sid o).history =
        [{ source_id := sid, total_found := arts.length, total_processed := arts.length,
           new_articles := (saveLoop db sid arts).2.1, crawl_depth := o.crawlDepth.getD 0 }]) ∧
    ((puppeteerCrawl webC5 lib0 srcC5 10 true).toOption.map (fun l => l.map (fun a => a.title)) =
      some ["Title 1", "Title 2", "Title 4", "Title 5"]) ∧
    puppeteerItemErrors webC5 lib0 srcC5 10 = 1 := by
  refine ⟨?_, by decide, by decide⟩
  intro arts hb
  rcases hsl : saveLoop db sid arts with ⟨db1, n1, k1⟩
  constructor <;> simp [crawlSource, hval, hsrc, hb, hsl]

/-- Witness for C5 at the five-item scenario. -/
theorem crawl_partial_failure_witness :
    (validateCrawlOptions optsC5).isValid = true ∧
    envC5.getSource 1 = some srcC5 ∧
    (backendCrawl srcC5 envC5.web envC5.lib (optsC5.limit.getD 10) (optsC5.fullContent.getD true) =
      .ok ((backendCrawl srcC5 envC5.web envC5.lib (optsC5.limit.getD 10)
        (optsC5.fullContent.getD true)).toOption.getD [])) ∧
    ((crawlSource envC5 dbEmpty 1 optsC5).result.success = true ∧
      (crawlSource envC5 dbEmpty 1 optsC5).history =
        [{ source_id := 1,
           total_found := ((backendCrawl srcC5 envC5.web envC5.lib (optsC5.limit.getD 10)
             (optsC5.fullContent.getD true)).toOption.getD []).length,
           total_processed := ((backendCrawl srcC5 envC5.web envC5.lib (optsC5.limit.getD 10)
             (optsC5.fullContent.getD true)).toOption.getD []).length,
           new_articles := (saveLoop dbEmpty 1 ((backendCrawl srcC5 envC5.web envC5.lib
             (optsC5.limit.getD 10) (optsC5.fullContent.getD true)).toOption.getD [])).2.1,
           crawl_depth := optsC5.crawlDepth.getD 0 }]) :=
  ⟨by decide, by decide, by decide,
    (crawl_partial_failure envC5 dbEmpty 1 optsC5 srcC5 (by decide) (by decide)).1
      ((backendCrawl srcC5 envC5.web envC5.lib (optsC5.limit.getD 10)
        (optsC5.fullContent.getD true)).toOption.getD []) (by decide)⟩

/-- Counterexample to C5 as stated: with five list items and item 3 raising a
navigation error, the run completes and processed is 4, but the claimed
errors count of 1 is reported nowhere - the result and history have no error
field, and the crawl route's errors coordinate (result.errors || 0) is 0. -/
theorem crawl_errors_not_reported_counterexample :
    puppeteerItemErrors webC5 lib0 srcC5 10 = 1 ∧
    (crawlSource envC5 dbEmpty 1 optsC5).result.success = true ∧
    (crawlSource envC5 dbEmpty 1 optsC5).history.map (fun h => h.total_processed) = [4] ∧
    (crawlerCrawlRoute envC5 dbEmpty 1 optsC5).1.errors = 0 ∧
    ¬ (crawlerCrawlRoute envC5 dbEmpty 1 optsC5).1.errors = 1 := by decide
